import Mathlib

/-!
Verification development for the location-request web service (`app.py`).

The service keeps an in-memory map `REQUEST_DB` from request tokens to a
lifecycle status string, persists one XML result document per token, and
exposes four HTTP handlers: `request_location`, `get_consent`,
`submit_location` and `get_location_xml`.  This file embeds those handlers
as pure Lean functions over an explicit `ServerState` and proves the
behavioural properties claimed for them.

Modelling conventions:
  - JSON values arriving in request bodies are modelled by `PyVal`, with
    Python truthiness mirrored by `truthy`.  Numeric JSON values are
    carried as their decimal literal strings (IEEE floating point is not
    re-modelled; `str` on a number is the identity on that literal).
  - The filesystem is modelled as an association list from token to the
    contents of `<RESULTS_DIR>/<token>.xml`.  File writes are modelled as
    succeeding; in the source an I/O failure is logged and swallowed, and
    an I/O read failure is environmental, so neither affects the state
    transitions proved here.
  - Raised Python exceptions that escape a handler (only possible in
    `submit_location` when the XML serializer is handed a non-string
    text value) are modelled by the `Option` result of the serializer
    and a `crash` response constructor.
-/

/-- A Python/JSON value as it appears in a request body: `None`, a string,
a number (carried as its decimal literal), or a dict. -/
inductive PyVal where
  | vNone : PyVal
  | vStr : String → PyVal
  | vNum : String → PyVal
  | vDict : List (String × PyVal) → PyVal

/-- Python truthiness: `None` is falsy, a string is truthy iff nonempty,
a number is truthy iff nonzero (zero literals enumerated), a dict is
truthy iff nonempty. -/
def truthy : PyVal → Bool
  | .vNone => false
  | .vStr s => !(s == "")
  | .vNum lit => !(lit == "0" || lit == "0.0" || lit == "-0" || lit == "-0.0")
  | .vDict fs => !fs.isEmpty

/-- A single quote character, used by the Python `repr` of dicts. -/
def sQuote : String := (Char.ofNat 39).toString

mutual

/-- Python `repr` of a value (used for values nested inside a dict). -/
def pyRepr : PyVal → String
  | .vNone => "None"
  | .vStr s => sQuote ++ s ++ sQuote
  | .vNum lit => lit
  | .vDict fs => "\x7b" ++ pyReprFields fs ++ "\x7d"

/-- Python `repr` of the comma-separated fields of a dict. -/
def pyReprFields : List (String × PyVal) → String
  | [] => ""
  | [(k, v)] => sQuote ++ k ++ sQuote ++ ": " ++ pyRepr v
  | (k, v) :: rest => sQuote ++ k ++ sQuote ++ ": " ++ pyRepr v ++ ", " ++ pyReprFields rest

end

/-- Python `str` of a value: the string itself for strings, `repr`
otherwise. -/
def pyStr : PyVal → String
  | .vStr s => s
  | v => pyRepr v

/-- Lookup in the field list of a dict.  Python dicts are last-writer-wins
on duplicate keys, hence the lookup over the reversed field list. -/
def lookupP : List (String × PyVal) → String → Option PyVal
  | [], _ => none
  | (k2, v) :: rest, k => if k = k2 then some v else lookupP rest k

/-- Python `dict.get(k)`: the stored value, or `None` when absent. -/
def dictGet (fs : List (String × PyVal)) (k : String) : PyVal :=
  match lookupP fs.reverse k with
  | some v => v
  | none => PyVal.vNone

/-- Character-level XML text escaping as performed by
`xml.etree.ElementTree.tostring` on text content. -/
def escapeList : List Char → List Char
  | [] => []
  | c :: cs =>
    (if c = '&' then "&amp;".toList
     else if c = '<' then "&lt;".toList
     else if c = '>' then "&gt;".toList
     else [c]) ++ escapeList cs

/-- XML text escaping on strings. -/
def escapeXml (s : String) : String := String.mk (escapeList s.data)

/-- The helper `generate_xml_response` of `app.py`: serialize a
`LocationRequest` element exactly as `ElementTree.tostring` renders the
tree built by the source.  `none` models the `TypeError` raised by the
serializer when a truthy non-string is assigned as text (possible for the
`error` field) or the `AttributeError` from `location.get` on a truthy
non-dict `location`. -/
def generate_xml_response (request_id status : String) (location error_msg : PyVal) :
    Option String :=
  if status = "completed" ∧ truthy location = true then
    match location with
    | PyVal.vDict fs =>
        some ("<LocationRequest><RequestID>" ++ escapeXml request_id ++
          ("</RequestID><Status>" ++ (escapeXml status ++ "</Status>")) ++
          ("<Coordinates><Latitude>" ++
            (escapeXml (pyStr (dictGet fs "lat")) ++
              ("</Latitude><Longitude>" ++
                (escapeXml (pyStr (dictGet fs "lon")) ++ "</Longitude></Coordinates>")))) ++
          "</LocationRequest>")
    | _ => none
  else if status = "denied" ∧ truthy error_msg = true then
    match error_msg with
    | PyVal.vStr s =>
        some ("<LocationRequest><RequestID>" ++ escapeXml request_id ++
          ("</RequestID><Status>" ++ (escapeXml status ++ "</Status>")) ++
          ("<Message>" ++ (escapeXml s ++ "</Message>")) ++ "</LocationRequest>")
    | _ => none
  else if status = "pending" then
    some ("<LocationRequest><RequestID>" ++ escapeXml request_id ++
      ("</RequestID><Status>" ++ (escapeXml status ++ "</Status>")) ++
      ("<Message>" ++
        (escapeXml "Location has not been provided by the user yet." ++ "</Message>")) ++
      "</LocationRequest>")
  else
    some ("<LocationRequest><RequestID>" ++ escapeXml request_id ++
      ("</RequestID><Status>" ++ (escapeXml status ++ "</Status>")) ++
      "</LocationRequest>")

/-- The whole mutable state of the process: the in-memory `REQUEST_DB`
mapping token to status string, and the results directory mapping token
to the contents of `<token>.xml`. -/
structure ServerState where
  requestDb : List (String × String)
  files : List (String × String)
deriving DecidableEq

/-- First-match lookup in an association list (Python `d[k]` / `k in d`). -/
def lookupS : List (String × String) → String → Option String
  | [], _ => none
  | (k2, v) :: rest, k => if k = k2 then some v else lookupS rest k

/-- Python `d[k] = v`: replace in place if the key exists, else append. -/
def setEntry : List (String × String) → String → String → List (String × String)
  | [], k, v => [(k, v)]
  | (k2, u) :: rest, k, v =>
    if k2 = k then (k, v) :: rest else (k2, u) :: setEntry rest k v

/-- Python `del d[k]`: remove the binding of `k`. -/
def eraseKey : List (String × String) → String → List (String × String)
  | [], _ => []
  | (k2, u) :: rest, k =>
    if k2 = k then eraseKey rest k else (k2, u) :: eraseKey rest k

/-- Outcome of `POST /request-location`: 500 when the Twilio client is
uninitialized, 400 when `phone_number` is missing, 202 with the fresh
token on success, 500 after a failed SMS delivery. -/
inductive RequestResult where
  | noClient : RequestResult
  | missingPhone : RequestResult
  | accepted : String → RequestResult
  | sendFailed : RequestResult
deriving DecidableEq

/-- Handler `request_location` of `app.py`.  `clientOk` models whether the
Twilio client initialized, `freshToken` the `uuid.uuid4()` draw, and
`sendOk` the outcome of the external `messages.create` call. -/
def request_location (st : ServerState) (clientOk : Bool) (phone_number : PyVal)
    (freshToken : String) (sendOk : Bool) : RequestResult × ServerState :=
  if !clientOk then (.noClient, st)
  else if !truthy phone_number then (.missingPhone, st)
  else
    let db1 := setEntry st.requestDb freshToken "pending"
    if sendOk then (.accepted freshToken, { st with requestDb := db1 })
    else (.sendFailed, { st with requestDb := eraseKey db1 freshToken })

/-- Outcome of `GET /consent/<request_id>`: 404 page, 200 informational
page for an already processed token, or the consent page. -/
inductive ConsentResult where
  | invalidRequest : ConsentResult
  | alreadyCompleted : ConsentResult
  | consentPage : String → ConsentResult
deriving DecidableEq

/-- Handler `get_consent` of `app.py` (the HTML body is out of scope). -/
def get_consent (st : ServerState) (request_id : String) : ConsentResult :=
  match lookupS st.requestDb request_id with
  | none => .invalidRequest
  | some s0 => if s0 ≠ "pending" then .alreadyCompleted else .consentPage request_id

/-- Outcome of `POST /submit-location`: 400 for an invalid token, 200
"Request already processed", 200 "received", or an unhandled exception
(HTTP 500) from the XML serializer. -/
inductive SubmitResult where
  | invalidToken : SubmitResult
  | alreadyProcessed : SubmitResult
  | received : SubmitResult
  | crash : SubmitResult
deriving DecidableEq

/-- Handler `submit_location` of `app.py`.  `token` is `data.get('token')`
(per the submission contract a string or absent), `location` and `error`
are the corresponding body fields. -/
def submit_location (st : ServerState) (token : Option String) (location error : PyVal) :
    SubmitResult × ServerState :=
  match token with
  | none => (.invalidToken, st)
  | some request_id =>
    if request_id = "" then (.invalidToken, st)
    else
      match lookupS st.requestDb request_id with
      | none => (.invalidToken, st)
      | some s0 =>
        if s0 ≠ "pending" then (.alreadyProcessed, st)
        else if truthy location = true then
          match generate_xml_response request_id "completed" location PyVal.vNone with
          | none => (.crash, st)
          | some xml_data =>
            (.received,
              { requestDb := setEntry st.requestDb request_id "completed",
                files := setEntry st.files request_id xml_data })
        else
          match generate_xml_response request_id "denied" PyVal.vNone error with
          | none => (.crash, st)
          | some xml_data =>
            (.received,
              { requestDb := setEntry st.requestDb request_id "denied",
                files := setEntry st.files request_id xml_data })

/-- Outcome of `GET /get-location/<request_id>`: the persisted file
verbatim (200), a synthesized pending document (200), or a synthesized
error document (404). -/
inductive FetchResult where
  | fileContent : String → FetchResult
  | pendingDoc : String → FetchResult
  | notFound : String → FetchResult
deriving DecidableEq

/-- Handler `get_location_xml` of `app.py`. -/
def get_location_xml (st : ServerState) (request_id : String) : FetchResult :=
  match lookupS st.files request_id with
  | some content => .fileContent content
  | none =>
    if lookupS st.requestDb request_id = some "pending" then
      .pendingDoc ((generate_xml_response request_id "pending" PyVal.vNone PyVal.vNone).getD "")
    else
      .notFound
        ((generate_xml_response request_id "error" PyVal.vNone
          (PyVal.vStr "Request ID not found.")).getD "")

/-- One inbound HTTP operation, with the environmental inputs each handler
consumes (Twilio readiness, the uuid draw, the delivery outcome). -/
inductive Op where
  | req : Bool → PyVal → String → Bool → Op
  | consent : String → Op
  | submit : Option String → PyVal → PyVal → Op
  | fetch : String → Op

/-- State reached after one operation. -/
def applyOp (st : ServerState) : Op → ServerState
  | .req clientOk phone fresh sendOk => (request_location st clientOk phone fresh sendOk).2
  | .consent _ => st
  | .submit token location error => (submit_location st token location error).2
  | .fetch _ => st

/-- Environmental validity of an operation: `uuid.uuid4()` draws are fresh
(a collision has cryptographically negligible probability and the spec
treats tokens as globally unique for the process lifetime). -/
def opOk (st : ServerState) : Op → Prop
  | .req _ _ fresh _ => lookupS st.requestDb fresh = none
  | _ => True

/-- Execution of a list of valid operations from a starting state. -/
inductive Steps : ServerState → List Op → ServerState → Prop
  | nil : ∀ st, Steps st [] st
  | cons : ∀ st o ops st2, opOk st o → Steps (applyOp st o) ops st2 → Steps st (o :: ops) st2

/-- Result of parsing a `LocationRequest` document against the fixed
schema of the spec. -/
structure LocDoc where
  requestId : String
  status : String
  coords : Option (String × String)
  message : Option String
deriving DecidableEq

/-- Drop an expected literal sequence from the front of a character list,
failing when it does not match. -/
def dropLit : List Char → List Char → Option (List Char)
  | [], l => some l
  | _ :: _, [] => none
  | p :: ps, c :: cs => if c = p then dropLit ps cs else none

/-- Split a character list at the first markup character. -/
def textAndRest : List Char → List Char × List Char
  | [] => ([], [])
  | c :: cs =>
    if c = '<' then ([], c :: cs)
    else (c :: (textAndRest cs).1, (textAndRest cs).2)

/-- Membership test for a character sequence as a prefix. -/
def startsWithSeq : List Char → List Char → Bool
  | [], _ => true
  | _ :: _, [] => false
  | p :: ps, c :: cs => p == c && startsWithSeq ps cs

/-- Membership test for a character sequence anywhere in a list. -/
def hasSubSeq (pat : List Char) : List Char → Bool
  | [] => startsWithSeq pat []
  | c :: cs => startsWithSeq pat (c :: cs) || hasSubSeq pat cs

/-- Prepend a character under `Option`. -/
def omap (c : Char) : Option (List Char) → Option (List Char)
  | some l => some (c :: l)
  | none => none

/-- Unescape XML text content, failing on a raw ampersand that does not
begin one of the entities the escaper produces. -/
def unescapeV : List Char → Option (List Char)
  | [] => some []
  | c :: cs =>
    if c = '&' then
      if startsWithSeq "amp;".toList cs then omap '&' (unescapeV (cs.drop 4))
      else if startsWithSeq "lt;".toList cs then omap '<' (unescapeV (cs.drop 3))
      else if startsWithSeq "gt;".toList cs then omap '>' (unescapeV (cs.drop 3))
      else none
    else omap c (unescapeV cs)
termination_by l => l.length
decreasing_by
  all_goals simp [List.length_drop]
  all_goals omega

/-- Read one run of text content: everything up to the next markup
character, unescaped. -/
def parseText (l : List Char) : Option (List Char × List Char) :=
  match unescapeV (textAndRest l).1 with
  | none => none
  | some t => some (t, (textAndRest l).2)

/-- Parse the optional `Coordinates` element of the schema. -/
def parseCoordsOpt (l : List Char) : Option (Option (String × String) × List Char) :=
  match dropLit "<Coordinates><Latitude>".toList l with
  | none => some (none, l)
  | some r1 =>
    match parseText r1 with
    | none => none
    | some (lat, r2) =>
      match dropLit "</Latitude><Longitude>".toList r2 with
      | none => none
      | some r3 =>
        match parseText r3 with
        | none => none
        | some (lon, r4) =>
          match dropLit "</Longitude></Coordinates>".toList r4 with
          | none => none
          | some r5 => some (some (String.mk lat, String.mk lon), r5)

/-- Parse the optional `Message` element of the schema. -/
def parseMsgOpt (l : List Char) : Option (Option String × List Char) :=
  match dropLit "<Message>".toList l with
  | none => some (none, l)
  | some r1 =>
    match parseText r1 with
    | none => none
    | some (m, r2) =>
      match dropLit "</Message>".toList r2 with
      | none => none
      | some r3 => some (some (String.mk m), r3)

/-- Modelled from the spec: the decoding direction of the Result Codec
round-trip.  The repository ships no XML reader, so this parser is written
against the exact persisted schema of the spec (`LocationRequest` with
`RequestID`, `Status`, optional `Coordinates`, optional `Message`); it
succeeds only on documents that are well-formed instances of that schema
and recovers the unescaped text content of every element. -/
def parseLocationXml (doc : String) : Option LocDoc :=
  match dropLit "<LocationRequest><RequestID>".toList doc.data with
  | none => none
  | some r1 =>
    match parseText r1 with
    | none => none
    | some (rid, r2) =>
      match dropLit "</RequestID><Status>".toList r2 with
      | none => none
      | some r3 =>
        match parseText r3 with
        | none => none
        | some (st0, r4) =>
          match dropLit "</Status>".toList r4 with
          | none => none
          | some r5 =>
            match parseCoordsOpt r5 with
            | none => none
            | some (co, r6) =>
              match parseMsgOpt r6 with
              | none => none
              | some (msg, r7) =>
                match dropLit "</LocationRequest>".toList r7 with
                | none => none
                | some r8 =>
                  if r8.isEmpty then some ⟨String.mk rid, String.mk st0, co, msg⟩
                  else none

/-- The submission contract of the consent page (spec section 6): the
`location` body field is a coordinate object or `null`. -/
def locationFieldOk (l : PyVal) : Prop :=
  l = PyVal.vNone ∨ ∃ fs, l = PyVal.vDict fs

/-- The submission contract of the consent page (spec section 6): the
`error` body field is a string or `null`. -/
def errorFieldOk (e : PyVal) : Prop :=
  e = PyVal.vNone ∨ ∃ s, e = PyVal.vStr s

theorem lookupS_setEntry (m : List (String × String)) (k v t : String) :
    lookupS (setEntry m k v) t = if t = k then some v else lookupS m t := by
  induction m with
  | nil => simp [setEntry, lookupS]
  | cons p rest ih =>
    obtain ⟨k2, u⟩ := p
    by_cases hk : k2 = k
    · subst hk
      by_cases ht : t = k2 <;> simp [setEntry, lookupS, ht]
    · by_cases ht : t = k2
      · subst ht
        have : ¬ t = k := fun hh => hk (by simp [hh])
        simp [setEntry, lookupS, hk, this]
      · simp [setEntry, lookupS, hk, ht, ih]

theorem lookupS_eraseKey (m : List (String × String)) (k t : String) :
    lookupS (eraseKey m k) t = if t = k then none else lookupS m t := by
  induction m with
  | nil => simp [eraseKey, lookupS]
  | cons p rest ih =>
    obtain ⟨k2, u⟩ := p
    by_cases hk : k2 = k
    · subst hk
      by_cases ht : t = k2
      · subst ht
        simpa [eraseKey] using ih
      · simp [eraseKey, lookupS, ht, ih]
    · by_cases ht : t = k2
      · subst ht
        have : ¬ t = k := fun hh => hk (by simp [hh])
        simp [eraseKey, lookupS, hk, this]
      · simp [eraseKey, lookupS, hk, ht, ih]

theorem eraseKey_setEntry_fresh (m : List (String × String)) (k v : String)
    (h : lookupS m k = none) : eraseKey (setEntry m k v) k = m := by
  induction m with
  | nil => simp [setEntry, eraseKey]
  | cons p rest ih =>
    obtain ⟨k2, u⟩ := p
    by_cases hk : k = k2
    · subst hk
      simp [lookupS] at h
    · have h2 : lookupS rest k = none := by
        simpa [lookupS, hk] using h
      have hk2 : k2 ≠ k := fun hh => hk hh.symm
      simp [setEntry, eraseKey, hk2, ih h2]

theorem strDataAppend (s t : String) : (s ++ t).data = s.data ++ t.data := by
  cases s
  cases t
  rfl

theorem escapeXmlData (s : String) : (escapeXml s).data = escapeList s.data := rfl

theorem mkData (s : String) : String.mk s.data = s := rfl

theorem dropLit_self (p r : List Char) : dropLit p (p ++ r) = some r := by
  induction p with
  | nil => rfl
  | cons c cs ih => simp [dropLit, ih]

theorem dropLit_lit (lit : String) (r : List Char) :
    dropLit lit.toList (lit.data ++ r) = some r :=
  dropLit_self lit.data r

theorem lt_not_mem_escapeList (l : List Char) : '<' ∉ escapeList l := by
  induction l with
  | nil => simp [escapeList]
  | cons c cs ih =>
    intro h
    rw [escapeList] at h
    rcases List.mem_append.mp h with h1 | h2
    · by_cases hA : c = '&'
      · rw [if_pos hA] at h1
        revert h1
        decide
      · rw [if_neg hA] at h1
        by_cases hB : c = '<'
        · rw [if_pos hB] at h1
          revert h1
          decide
        · rw [if_neg hB] at h1
          by_cases hC : c = '>'
          · rw [if_pos hC] at h1
            revert h1
            decide
          · rw [if_neg hC] at h1
            simp at h1
            exact hB h1.symm
    · exact ih h2

theorem textAndRest_append (a b : List Char) (ha : '<' ∉ a) (hb : b.head? = some '<') :
    textAndRest (a ++ b) = (a, b) := by
  induction a with
  | nil =>
    cases b with
    | nil => simp at hb
    | cons c cs =>
      simp at hb
      simp [textAndRest, hb]
  | cons c cs ih =>
    have hc : c ≠ '<' := fun h => ha (by simp [h])
    have ha2 : '<' ∉ cs := fun h => ha (List.mem_cons_of_mem _ h)
    simp [textAndRest, hc, ih ha2]

theorem unescapeV_escapeList (l : List Char) : unescapeV (escapeList l) = some l := by
  induction l with
  | nil => simp [escapeList, unescapeV]
  | cons c cs ih =>
    by_cases hA : c = '&'
    · subst hA
      have h1 : escapeList ('&' :: cs) = '&' :: ('a' :: 'm' :: 'p' :: ';' :: escapeList cs) := by
        rw [escapeList]
        simp
      rw [h1]
      rw [unescapeV]
      simp [startsWithSeq, List.drop, omap, ih]
    · by_cases hB : c = '<'
      · subst hB
        have h1 : escapeList ('<' :: cs) = '&' :: ('l' :: 't' :: ';' :: escapeList cs) := by
          rw [escapeList]
          simp
        rw [h1]
        rw [unescapeV]
        simp [startsWithSeq, List.drop, omap, ih]
      · by_cases hC : c = '>'
        · subst hC
          have h1 : escapeList ('>' :: cs) = '&' :: ('g' :: 't' :: ';' :: escapeList cs) := by
            rw [escapeList]
            simp
          rw [h1]
          rw [unescapeV]
          simp [startsWithSeq, List.drop, omap, ih]
        · have h1 : escapeList (c :: cs) = c :: escapeList cs := by
            rw [escapeList]
            simp [hA, hB, hC]
          rw [h1]
          rw [unescapeV]
          simp [hA, omap, ih]

theorem parseText_escaped (s b : List Char) (hb : b.head? = some '<') :
    parseText (escapeList s ++ b) = some (s, b) := by
  unfold parseText
  rw [textAndRest_append _ _ (lt_not_mem_escapeList s) hb]
  simp [unescapeV_escapeList]

theorem parseText_lit1 (s X : List Char) :
    parseText (escapeList s ++ ("</RequestID><Status>".data ++ X)) =
      some (s, "</RequestID><Status>".data ++ X) :=
  parseText_escaped _ _ rfl

theorem parseText_lit2 (s X : List Char) :
    parseText (escapeList s ++ ("</Status>".data ++ X)) =
      some (s, "</Status>".data ++ X) :=
  parseText_escaped _ _ rfl

theorem parseText_lit3 (s X : List Char) :
    parseText (escapeList s ++ ("</Latitude><Longitude>".data ++ X)) =
      some (s, "</Latitude><Longitude>".data ++ X) :=
  parseText_escaped _ _ rfl

theorem parseText_lit4 (s X : List Char) :
    parseText (escapeList s ++ ("</Longitude></Coordinates>".data ++ X)) =
      some (s, "</Longitude></Coordinates>".data ++ X) :=
  parseText_escaped _ _ rfl

theorem parseText_lit5 (s X : List Char) :
    parseText (escapeList s ++ ("</Message>".data ++ X)) =
      some (s, "</Message>".data ++ X) :=
  parseText_escaped _ _ rfl

theorem dropLit_cons_eq (p c : Char) (ps cs : List Char) (h : c = p) :
    dropLit (p :: ps) (c :: cs) = dropLit ps cs := by
  simp [dropLit, h]

theorem dropLit_cons_ne (p c : Char) (ps cs : List Char) (h : ¬ c = p) :
    dropLit (p :: ps) (c :: cs) = none := by
  simp [dropLit, h]

theorem dropLit_open (r : List Char) :
    dropLit "<LocationRequest><RequestID>".toList (['<', 'L', 'o', 'c', 'a', 't', 'i', 'o', 'n', 'R', 'e', 'q', 'u', 'e', 's', 't', '>', '<', 'R', 'e', 'q', 'u', 'e', 's', 't', 'I', 'D', '>'] ++ r) = some r := by
  show dropLit ['<', 'L', 'o', 'c', 'a', 't', 'i', 'o', 'n', 'R', 'e', 'q', 'u', 'e', 's', 't', '>', '<', 'R', 'e', 'q', 'u', 'e', 's', 't', 'I', 'D', '>'] (['<', 'L', 'o', 'c', 'a', 't', 'i', 'o', 'n', 'R', 'e', 'q', 'u', 'e', 's', 't', '>', '<', 'R', 'e', 'q', 'u', 'e', 's', 't', 'I', 'D', '>'] ++ r) = some r
  exact dropLit_self _ r

theorem dropLit_ridStatus (r : List Char) :
    dropLit "</RequestID><Status>".toList (['<', '/', 'R', 'e', 'q', 'u', 'e', 's', 't', 'I', 'D', '>', '<', 'S', 't', 'a', 't', 'u', 's', '>'] ++ r) = some r := by
  show dropLit ['<', '/', 'R', 'e', 'q', 'u', 'e', 's', 't', 'I', 'D', '>', '<', 'S', 't', 'a', 't', 'u', 's', '>'] (['<', '/', 'R', 'e', 'q', 'u', 'e', 's', 't', 'I', 'D', '>', '<', 'S', 't', 'a', 't', 'u', 's', '>'] ++ r) = some r
  exact dropLit_self _ r

theorem dropLit_status (r : List Char) :
    dropLit "</Status>".toList (['<', '/', 'S', 't', 'a', 't', 'u', 's', '>'] ++ r) = some r := by
  show dropLit ['<', '/', 'S', 't', 'a', 't', 'u', 's', '>'] (['<', '/', 'S', 't', 'a', 't', 'u', 's', '>'] ++ r) = some r
  exact dropLit_self _ r

theorem dropLit_coordsOpen (r : List Char) :
    dropLit "<Coordinates><Latitude>".toList (['<', 'C', 'o', 'o', 'r', 'd', 'i', 'n', 'a', 't', 'e', 's', '>', '<', 'L', 'a', 't', 'i', 't', 'u', 'd', 'e', '>'] ++ r) = some r := by
  show dropLit ['<', 'C', 'o', 'o', 'r', 'd', 'i', 'n', 'a', 't', 'e', 's', '>', '<', 'L', 'a', 't', 'i', 't', 'u', 'd', 'e', '>'] (['<', 'C', 'o', 'o', 'r', 'd', 'i', 'n', 'a', 't', 'e', 's', '>', '<', 'L', 'a', 't', 'i', 't', 'u', 'd', 'e', '>'] ++ r) = some r
  exact dropLit_self _ r

theorem dropLit_latLon (r : List Char) :
    dropLit "</Latitude><Longitude>".toList (['<', '/', 'L', 'a', 't', 'i', 't', 'u', 'd', 'e', '>', '<', 'L', 'o', 'n', 'g', 'i', 't', 'u', 'd', 'e', '>'] ++ r) = some r := by
  show dropLit ['<', '/', 'L', 'a', 't', 'i', 't', 'u', 'd', 'e', '>', '<', 'L', 'o', 'n', 'g', 'i', 't', 'u', 'd', 'e', '>'] (['<', '/', 'L', 'a', 't', 'i', 't', 'u', 'd', 'e', '>', '<', 'L', 'o', 'n', 'g', 'i', 't', 'u', 'd', 'e', '>'] ++ r) = some r
  exact dropLit_self _ r

theorem dropLit_coordsClose (r : List Char) :
    dropLit "</Longitude></Coordinates>".toList (['<', '/', 'L', 'o', 'n', 'g', 'i', 't', 'u', 'd', 'e', '>', '<', '/', 'C', 'o', 'o', 'r', 'd', 'i', 'n', 'a', 't', 'e', 's', '>'] ++ r) = some r := by
  show dropLit ['<', '/', 'L', 'o', 'n', 'g', 'i', 't', 'u', 'd', 'e', '>', '<', '/', 'C', 'o', 'o', 'r', 'd', 'i', 'n', 'a', 't', 'e', 's', '>'] (['<', '/', 'L', 'o', 'n', 'g', 'i', 't', 'u', 'd', 'e', '>', '<', '/', 'C', 'o', 'o', 'r', 'd', 'i', 'n', 'a', 't', 'e', 's', '>'] ++ r) = some r
  exact dropLit_self _ r

theorem dropLit_msgOpen (r : List Char) :
    dropLit "<Message>".toList (['<', 'M', 'e', 's', 's', 'a', 'g', 'e', '>'] ++ r) = some r := by
  show dropLit ['<', 'M', 'e', 's', 's', 'a', 'g', 'e', '>'] (['<', 'M', 'e', 's', 's', 'a', 'g', 'e', '>'] ++ r) = some r
  exact dropLit_self _ r

theorem dropLit_msgClose (r : List Char) :
    dropLit "</Message>".toList (['<', '/', 'M', 'e', 's', 's', 'a', 'g', 'e', '>'] ++ r) = some r := by
  show dropLit ['<', '/', 'M', 'e', 's', 's', 'a', 'g', 'e', '>'] (['<', '/', 'M', 'e', 's', 's', 'a', 'g', 'e', '>'] ++ r) = some r
  exact dropLit_self _ r

theorem parseText_lit1x (s X : List Char) :
    parseText (escapeList s ++ (['<', '/', 'R', 'e', 'q', 'u', 'e', 's', 't', 'I', 'D', '>', '<', 'S', 't', 'a', 't', 'u', 's', '>'] ++ X)) = some (s, ['<', '/', 'R', 'e', 'q', 'u', 'e', 's', 't', 'I', 'D', '>', '<', 'S', 't', 'a', 't', 'u', 's', '>'] ++ X) :=
  parseText_escaped _ _ rfl

theorem parseText_lit2x (s X : List Char) :
    parseText (escapeList s ++ (['<', '/', 'S', 't', 'a', 't', 'u', 's', '>'] ++ X)) = some (s, ['<', '/', 'S', 't', 'a', 't', 'u', 's', '>'] ++ X) :=
  parseText_escaped _ _ rfl

theorem parseText_lit3x (s X : List Char) :
    parseText (escapeList s ++ (['<', '/', 'L', 'a', 't', 'i', 't', 'u', 'd', 'e', '>', '<', 'L', 'o', 'n', 'g', 'i', 't', 'u', 'd', 'e', '>'] ++ X)) = some (s, ['<', '/', 'L', 'a', 't', 'i', 't', 'u', 'd', 'e', '>', '<', 'L', 'o', 'n', 'g', 'i', 't', 'u', 'd', 'e', '>'] ++ X) :=
  parseText_escaped _ _ rfl

theorem parseText_lit4x (s X : List Char) :
    parseText (escapeList s ++ (['<', '/', 'L', 'o', 'n', 'g', 'i', 't', 'u', 'd', 'e', '>', '<', '/', 'C', 'o', 'o', 'r', 'd', 'i', 'n', 'a', 't', 'e', 's', '>'] ++ X)) = some (s, ['<', '/', 'L', 'o', 'n', 'g', 'i', 't', 'u', 'd', 'e', '>', '<', '/', 'C', 'o', 'o', 'r', 'd', 'i', 'n', 'a', 't', 'e', 's', '>'] ++ X) :=
  parseText_escaped _ _ rfl

theorem parseText_lit5x (s X : List Char) :
    parseText (escapeList s ++ (['<', '/', 'M', 'e', 's', 's', 'a', 'g', 'e', '>'] ++ X)) = some (s, ['<', '/', 'M', 'e', 's', 's', 'a', 'g', 'e', '>'] ++ X) :=
  parseText_escaped _ _ rfl

theorem dropLitCoords_msg (Y : List Char) :
    dropLit "<Coordinates><Latitude>".toList (['<', 'M', 'e', 's', 's', 'a', 'g', 'e', '>'] ++ Y) = none := by
  show dropLit ['<', 'C', 'o', 'o', 'r', 'd', 'i', 'n', 'a', 't', 'e', 's', '>', '<', 'L', 'a', 't', 'i', 't', 'u', 'd', 'e', '>'] (['<', 'M', 'e', 's', 's', 'a', 'g', 'e', '>'] ++ Y) = none
  rw [List.cons_append, dropLit_cons_eq _ _ _ _ rfl, List.cons_append, dropLit_cons_ne]
  decide

theorem dropLitCoords_end (Y : List Char) :
    dropLit "<Coordinates><Latitude>".toList (['<', '/', 'L', 'o', 'c', 'a', 't', 'i', 'o', 'n', 'R', 'e', 'q', 'u', 'e', 's', 't', '>'] ++ Y) = none := by
  show dropLit ['<', 'C', 'o', 'o', 'r', 'd', 'i', 'n', 'a', 't', 'e', 's', '>', '<', 'L', 'a', 't', 'i', 't', 'u', 'd', 'e', '>'] (['<', '/', 'L', 'o', 'c', 'a', 't', 'i', 'o', 'n', 'R', 'e', 'q', 'u', 'e', 's', 't', '>'] ++ Y) = none
  rw [List.cons_append, dropLit_cons_eq _ _ _ _ rfl, List.cons_append, dropLit_cons_ne]
  decide

theorem dropLitMsg_end (Y : List Char) :
    dropLit "<Message>".toList (['<', '/', 'L', 'o', 'c', 'a', 't', 'i', 'o', 'n', 'R', 'e', 'q', 'u', 'e', 's', 't', '>'] ++ Y) = none := by
  show dropLit ['<', 'M', 'e', 's', 's', 'a', 'g', 'e', '>'] (['<', '/', 'L', 'o', 'c', 'a', 't', 'i', 'o', 'n', 'R', 'e', 'q', 'u', 'e', 's', 't', '>'] ++ Y) = none
  rw [List.cons_append, dropLit_cons_eq _ _ _ _ rfl, List.cons_append, dropLit_cons_ne]
  decide

theorem parseCoordsOpt_shape (lat lon Y : List Char) :
    parseCoordsOpt (['<', 'C', 'o', 'o', 'r', 'd', 'i', 'n', 'a', 't', 'e', 's', '>', '<', 'L', 'a', 't', 'i', 't', 'u', 'd', 'e', '>'] ++ (escapeList lat ++
      (['<', '/', 'L', 'a', 't', 'i', 't', 'u', 'd', 'e', '>', '<', 'L', 'o', 'n', 'g', 'i', 't', 'u', 'd', 'e', '>'] ++ (escapeList lon ++
        (['<', '/', 'L', 'o', 'n', 'g', 'i', 't', 'u', 'd', 'e', '>', '<', '/', 'C', 'o', 'o', 'r', 'd', 'i', 'n', 'a', 't', 'e', 's', '>'] ++ Y))))) =
      some (some (String.mk lat, String.mk lon), Y) := by
  simp only [parseCoordsOpt, dropLit_coordsOpen, parseText_lit3x, parseText_lit4x,
    dropLit_latLon, dropLit_coordsClose]

theorem parseCoordsOpt_msgHead (Y : List Char) :
    parseCoordsOpt (['<', 'M', 'e', 's', 's', 'a', 'g', 'e', '>'] ++ Y) = some (none, ['<', 'M', 'e', 's', 's', 'a', 'g', 'e', '>'] ++ Y) := by
  simp only [parseCoordsOpt, dropLitCoords_msg]

theorem parseCoordsOpt_endHead (Y : List Char) :
    parseCoordsOpt (['<', '/', 'L', 'o', 'c', 'a', 't', 'i', 'o', 'n', 'R', 'e', 'q', 'u', 'e', 's', 't', '>'] ++ Y) = some (none, ['<', '/', 'L', 'o', 'c', 'a', 't', 'i', 'o', 'n', 'R', 'e', 'q', 'u', 'e', 's', 't', '>'] ++ Y) := by
  simp only [parseCoordsOpt, dropLitCoords_end]

theorem parseMsgOpt_shape (m Y : List Char) :
    parseMsgOpt (['<', 'M', 'e', 's', 's', 'a', 'g', 'e', '>'] ++ (escapeList m ++ (['<', '/', 'M', 'e', 's', 's', 'a', 'g', 'e', '>'] ++ Y))) =
      some (some (String.mk m), Y) := by
  simp only [parseMsgOpt, dropLit_msgOpen, parseText_lit5x, dropLit_msgClose]

theorem parseMsgOpt_endHead (Y : List Char) :
    parseMsgOpt (['<', '/', 'L', 'o', 'c', 'a', 't', 'i', 'o', 'n', 'R', 'e', 'q', 'u', 'e', 's', 't', '>'] ++ Y) = some (none, ['<', '/', 'L', 'o', 'c', 'a', 't', 'i', 'o', 'n', 'R', 'e', 'q', 'u', 'e', 's', 't', '>'] ++ Y) := by
  simp only [parseMsgOpt, dropLitMsg_end]

theorem parseCoordsOpt_endBare : parseCoordsOpt "</LocationRequest>".data =
    some (none, "</LocationRequest>".data) := by
  decide

theorem parseMsgOpt_endBare : parseMsgOpt "</LocationRequest>".data =
    some (none, "</LocationRequest>".data) := by
  decide

theorem dropLit_end2 :
    dropLit "</LocationRequest>".toList ['<', '/', 'L', 'o', 'c', 'a', 't', 'i', 'o', 'n', 'R', 'e', 'q', 'u', 'e', 's', 't', '>'] = some [] := by
  decide

theorem parseLocationXml_shape (rid st0 : String) (r5 : List Char)
    (co : Option (String × String)) (msg : Option String) (r6 r7 : List Char)
    (hco : parseCoordsOpt r5 = some (co, r6))
    (hmsg : parseMsgOpt r6 = some (msg, r7))
    (hend : dropLit "</LocationRequest>".toList r7 = some [])
    (doc : String)
    (hdoc : doc.data = ['<', 'L', 'o', 'c', 'a', 't', 'i', 'o', 'n', 'R', 'e', 'q', 'u', 'e', 's', 't', '>', '<', 'R', 'e', 'q', 'u', 'e', 's', 't', 'I', 'D', '>'] ++
      (escapeList rid.data ++ (['<', '/', 'R', 'e', 'q', 'u', 'e', 's', 't', 'I', 'D', '>', '<', 'S', 't', 'a', 't', 'u', 's', '>'] ++
        (escapeList st0.data ++ (['<', '/', 'S', 't', 'a', 't', 'u', 's', '>'] ++ r5))))) :
    parseLocationXml doc = some ⟨rid, st0, co, msg⟩ := by
  simp only [parseLocationXml, hdoc, dropLit_open, parseText_lit1x, dropLit_ridStatus,
    parseText_lit2x, dropLit_status, hco, hmsg, hend, List.isEmpty_nil, if_true, mkData]

theorem gen_parse_denied_msg (rid s : String) (hs : s ≠ "") :
    ∃ doc, generate_xml_response rid "denied" PyVal.vNone (PyVal.vStr s) = some doc ∧
      parseLocationXml doc = some ⟨rid, "denied", none, some s⟩ := by
  have hc0 : ¬("denied" = "completed" ∧ truthy PyVal.vNone = true) :=
    fun h => absurd h.1 (by decide)
  have hc1 : ("denied" = "denied" ∧ truthy (PyVal.vStr s) = true) :=
    ⟨rfl, by simp [truthy, hs]⟩
  refine ⟨"<LocationRequest><RequestID>" ++ escapeXml rid ++
      ("</RequestID><Status>" ++ (escapeXml "denied" ++ "</Status>")) ++
      ("<Message>" ++ (escapeXml s ++ "</Message>")) ++ "</LocationRequest>", ?_, ?_⟩
  · unfold generate_xml_response
    rw [if_neg hc0, if_pos hc1]
  · refine parseLocationXml_shape rid "denied" _ _ _ _ _
      (parseCoordsOpt_msgHead _) (parseMsgOpt_shape s.data _) dropLit_end2 _ ?_
    simp [strDataAppend, escapeXmlData, List.append_assoc]

theorem gen_parse_completed (rid lat lon : String) :
    ∃ doc, generate_xml_response rid "completed"
        (PyVal.vDict [("lat", PyVal.vNum lat), ("lon", PyVal.vNum lon)]) PyVal.vNone =
        some doc ∧
      parseLocationXml doc = some ⟨rid, "completed", some (lat, lon), none⟩ := by
  have hc0 : ("completed" = "completed" ∧
      truthy (PyVal.vDict [("lat", PyVal.vNum lat), ("lon", PyVal.vNum lon)]) = true) :=
    ⟨rfl, by simp [truthy]⟩
  have hlat : pyStr (dictGet [("lat", PyVal.vNum lat), ("lon", PyVal.vNum lon)] "lat") =
      lat := by
    simp [dictGet, lookupP, pyStr, pyRepr]
  have hlon : pyStr (dictGet [("lat", PyVal.vNum lat), ("lon", PyVal.vNum lon)] "lon") =
      lon := by
    simp [dictGet, lookupP, pyStr, pyRepr]
  refine ⟨"<LocationRequest><RequestID>" ++ escapeXml rid ++
      ("</RequestID><Status>" ++ (escapeXml "completed" ++ "</Status>")) ++
      ("<Coordinates><Latitude>" ++
        (escapeXml lat ++
          ("</Latitude><Longitude>" ++
            (escapeXml lon ++ "</Longitude></Coordinates>")))) ++
      "</LocationRequest>", ?_, ?_⟩
  · unfold generate_xml_response
    rw [if_pos hc0]
    rw [show (match PyVal.vDict [("lat", PyVal.vNum lat), ("lon", PyVal.vNum lon)] with
      | PyVal.vDict fs =>
        some ("<LocationRequest><RequestID>" ++ escapeXml rid ++
          ("</RequestID><Status>" ++ (escapeXml "completed" ++ "</Status>")) ++
          ("<Coordinates><Latitude>" ++
            (escapeXml (pyStr (dictGet fs "lat")) ++
              ("</Latitude><Longitude>" ++
                (escapeXml (pyStr (dictGet fs "lon")) ++ "</Longitude></Coordinates>")))) ++
          "</LocationRequest>")
      | _ => none) =
      some ("<LocationRequest><RequestID>" ++ escapeXml rid ++
        ("</RequestID><Status>" ++ (escapeXml "completed" ++ "</Status>")) ++
        ("<Coordinates><Latitude>" ++
          (escapeXml (pyStr (dictGet [("lat", PyVal.vNum lat), ("lon", PyVal.vNum lon)]
              "lat")) ++
            ("</Latitude><Longitude>" ++
              (escapeXml (pyStr (dictGet [("lat", PyVal.vNum lat), ("lon", PyVal.vNum lon)]
                  "lon")) ++ "</Longitude></Coordinates>")))) ++
        "</LocationRequest>") from rfl]
    rw [hlat, hlon]
  · refine parseLocationXml_shape rid "completed" _ _ _ _ _
      (parseCoordsOpt_shape lat.data lon.data _) parseMsgOpt_endBare dropLit_end2 _ ?_
    simp [strDataAppend, escapeXmlData, List.append_assoc]

theorem gen_parse_denied_falsy (rid : String) (e : PyVal) (he : truthy e = false) :
    ∃ doc, generate_xml_response rid "denied" PyVal.vNone e = some doc ∧
      parseLocationXml doc = some ⟨rid, "denied", none, none⟩ := by
  have hc0 : ¬("denied" = "completed" ∧ truthy PyVal.vNone = true) :=
    fun h => absurd h.1 (by decide)
  have hc1 : ¬("denied" = "denied" ∧ truthy e = true) :=
    fun h => by rw [he] at h; exact absurd h.2 (by decide)
  have hc2 : ¬(("denied" : String) = "pending") := by decide
  refine ⟨"<LocationRequest><RequestID>" ++ escapeXml rid ++
      ("</RequestID><Status>" ++ (escapeXml "denied" ++ "</Status>")) ++
      "</LocationRequest>", ?_, ?_⟩
  · unfold generate_xml_response
    rw [if_neg hc0, if_neg hc1, if_neg hc2]
  · refine parseLocationXml_shape rid "denied" _ _ _ _ _
      parseCoordsOpt_endBare parseMsgOpt_endBare dropLit_end2 _ ?_
    simp [strDataAppend, escapeXmlData, List.append_assoc]

theorem gen_completed_dict_isSome (rid : String) (fs : List (String × PyVal))
    (ht : truthy (PyVal.vDict fs) = true) :
    ∃ xml, generate_xml_response rid "completed" (PyVal.vDict fs) PyVal.vNone = some xml := by
  unfold generate_xml_response
  rw [if_pos ⟨rfl, ht⟩]
  exact ⟨_, rfl⟩

theorem gen_denied_isSome (rid : String) (e : PyVal) (he : errorFieldOk e) :
    ∃ xml, generate_xml_response rid "denied" PyVal.vNone e = some xml := by
  rcases he with he | ⟨s, he⟩
  · subst he
    obtain ⟨doc, hgen, _⟩ := gen_parse_denied_falsy rid PyVal.vNone (by decide)
    exact ⟨doc, hgen⟩
  · subst he
    by_cases hs : s = ""
    · subst hs
      obtain ⟨doc, hgen, _⟩ := gen_parse_denied_falsy rid (PyVal.vStr "") (by decide)
      exact ⟨doc, hgen⟩
    · obtain ⟨doc, hgen, _⟩ := gen_parse_denied_msg rid s hs
      exact ⟨doc, hgen⟩

theorem submit_nonpending (st : ServerState) (rid s0 : String) (l e : PyVal)
    (hr : rid ≠ "") (hdb : lookupS st.requestDb rid = some s0) (hs : s0 ≠ "pending") :
    submit_location st (some rid) l e = (SubmitResult.alreadyProcessed, st) := by
  simp [submit_location, hr, hdb, hs]

/-- C6 (confirmed): a submit call whose token is absent from the Status
Store, including a missing token field, fails with the InvalidToken error
(HTTP 400) and leaves the whole state, Status Store and files alike,
untouched. -/
theorem submit_unknown_token_invalid (st : ServerState) (token : Option String)
    (location error : PyVal)
    (h : ∀ s0, token = some s0 → lookupS st.requestDb s0 = none) :
    submit_location st token location error = (SubmitResult.invalidToken, st) := by
  cases token with
  | none => rfl
  | some rid =>
    by_cases hr : rid = ""
    · simp [submit_location, hr]
    · simp [submit_location, hr, h rid rfl]

/-- C6 witness: the unknown token "zzz" with a populated store. -/
theorem submit_unknown_token_invalid_witness :
    submit_location ⟨[("a", "pending")], []⟩ (some "zzz") PyVal.vNone PyVal.vNone =
      (SubmitResult.invalidToken, ⟨[("a", "pending")], []⟩) :=
  submit_unknown_token_invalid _ _ _ _ (by intro s0 hs0; cases hs0; decide)

/-- C1 counterexample: for the known pending token "t1" with neither
location nor error, the stored denied document is exactly the two-element
document below, which contains no Message element at all, refuting the
claimed generic placeholder message. -/
theorem denied_without_reason_cex :
    submit_location ⟨[("t1", "pending")], []⟩ (some "t1") PyVal.vNone PyVal.vNone =
      (SubmitResult.received,
        ⟨[("t1", "denied")],
         [("t1",
           "<LocationRequest><RequestID>t1</RequestID><Status>denied</Status></LocationRequest>")]⟩) ∧
    hasSubSeq "<Message>".data
      "<LocationRequest><RequestID>t1</RequestID><Status>denied</Status></LocationRequest>".data
      = false := by
  decide

/-- C1 (corrected): for a known pending token whose location is absent and
whose errorText is a string or absent per the submission contract, submit
acknowledges success (never crashes) and stores a denied document; when
the errorText is absent or empty the stored denied document contains no
Message element (there is no generic placeholder message). -/
theorem submit_absent_location_denied (st : ServerState) (rid : String) (e : PyVal)
    (hdb : lookupS st.requestDb rid = some "pending") (hr : rid ≠ "")
    (he : errorFieldOk e) :
    (submit_location st (some rid) PyVal.vNone e).1 = SubmitResult.received ∧
    lookupS (submit_location st (some rid) PyVal.vNone e).2.requestDb rid = some "denied" ∧
    ∃ doc, lookupS (submit_location st (some rid) PyVal.vNone e).2.files rid = some doc ∧
      (truthy e = false → parseLocationXml doc = some ⟨rid, "denied", none, none⟩) := by
  obtain ⟨xml, hgen⟩ := gen_denied_isSome rid e he
  have hsub : submit_location st (some rid) PyVal.vNone e =
      (SubmitResult.received,
        ⟨setEntry st.requestDb rid "denied", setEntry st.files rid xml⟩) := by
    simp [submit_location, hr, hdb, truthy, hgen]
  rw [hsub]
  refine ⟨rfl, by simp [lookupS_setEntry], xml, by simp [lookupS_setEntry], ?_⟩
  intro hfalsy
  obtain ⟨doc2, hgen2, hparse2⟩ := gen_parse_denied_falsy rid e hfalsy
  rw [hgen] at hgen2
  rw [Option.some.inj hgen2]
  exact hparse2

/-- C1 witness: the pending token "t9" denied with no reason. -/
theorem submit_absent_location_denied_witness :
    (submit_location ⟨[("t9", "pending")], []⟩ (some "t9") PyVal.vNone PyVal.vNone).1 =
      SubmitResult.received ∧
    lookupS (submit_location ⟨[("t9", "pending")], []⟩ (some "t9") PyVal.vNone
      PyVal.vNone).2.requestDb "t9" = some "denied" ∧
    ∃ doc, lookupS (submit_location ⟨[("t9", "pending")], []⟩ (some "t9") PyVal.vNone
      PyVal.vNone).2.files "t9" = some doc ∧
      (truthy PyVal.vNone = false →
        parseLocationXml doc = some ⟨"t9", "denied", none, none⟩) :=
  submit_absent_location_denied ⟨[("t9", "pending")], []⟩ "t9" PyVal.vNone (by decide)
    (by decide) (Or.inl rfl)

/-- C2 (code_bug): for a token with no persisted document and no Status
Store entry, fetchResult does return a synthesized not-found document with
HTTP 404 whose Status is error, but that document carries no Message
element: generate_xml_response only attaches a Message for a truthy
message on the denied status, so the "Request ID not found." text passed
by the handler is silently dropped, contradicting the schema (Message
present when denied, pending, or error) and the caller's evident intent. -/
theorem not_found_doc_lacks_message :
    get_location_xml ⟨[], []⟩ "t2" =
      FetchResult.notFound
        "<LocationRequest><RequestID>t2</RequestID><Status>error</Status></LocationRequest>" ∧
    hasSubSeq "<Message>".data
      "<LocationRequest><RequestID>t2</RequestID><Status>error</Status></LocationRequest>".data
      = false := by
  decide

/-- C5 (confirmed): when the SMS delivery raises, request_location deletes
the Status Store entry it had just created for the fresh uuid token, so
the state is exactly what it was before the call, and a 500-equivalent
delivery failure is returned. -/
theorem initiate_rollback_on_send_failure (st : ServerState) (phone : PyVal)
    (fresh : String) (hphone : truthy phone = true)
    (hfresh : lookupS st.requestDb fresh = none) :
    request_location st true phone fresh false = (RequestResult.sendFailed, st) := by
  cases st with
  | mk db files =>
    simp [request_location, hphone, eraseKey_setEntry_fresh db fresh "pending" hfresh]

/-- C5 witness: a failed delivery for the fresh token "tok". -/
theorem initiate_rollback_on_send_failure_witness :
    request_location ⟨[("b", "completed")], []⟩ true (PyVal.vStr "+15551234567") "tok"
      false = (RequestResult.sendFailed, ⟨[("b", "completed")], []⟩) :=
  initiate_rollback_on_send_failure ⟨[("b", "completed")], []⟩ (PyVal.vStr "+15551234567")
    "tok" (by decide) (by decide)

/-- C4 (confirmed): fetchResult on a token just created by a successful
request_location, before any submit (so no file persisted for it), returns
the pending document synthesized from the Status Store; and whenever a
persisted document exists for a token it is returned verbatim, regardless
of the in-memory status (the file takes precedence). -/
theorem fetch_pending_and_verbatim :
    (∀ (st : ServerState) (phone : PyVal) (fresh : String),
      truthy phone = true →
      lookupS st.files fresh = none →
      get_location_xml (request_location st true phone fresh true).2 fresh =
        FetchResult.pendingDoc
          ((generate_xml_response fresh "pending" PyVal.vNone PyVal.vNone).getD "")) ∧
    (∀ (st : ServerState) (rid doc : String),
      lookupS st.files rid = some doc →
      get_location_xml st rid = FetchResult.fileContent doc) := by
  constructor
  · intro st phone fresh hp hf
    have h2 : (request_location st true phone fresh true).2 =
        { st with requestDb := setEntry st.requestDb fresh "pending" } := by
      simp [request_location, hp]
    rw [h2]
    simp [get_location_xml, hf, lookupS_setEntry]
  · intro st rid doc h
    simp [get_location_xml, h]

/-- C4 witness: a fresh request for "T" then fetch, and a direct fetch of
a persisted file. -/
theorem fetch_pending_and_verbatim_witness :
    get_location_xml (request_location ⟨[], []⟩ true (PyVal.vStr "+15551234567") "T"
        true).2 "T" =
      FetchResult.pendingDoc
        ((generate_xml_response "T" "pending" PyVal.vNone PyVal.vNone).getD "") ∧
    get_location_xml ⟨[], [("k", "stored-bytes")]⟩ "k" =
      FetchResult.fileContent "stored-bytes" :=
  ⟨fetch_pending_and_verbatim.1 ⟨[], []⟩ (PyVal.vStr "+15551234567") "T" (by decide)
      (by decide),
    fetch_pending_and_verbatim.2 ⟨[], [("k", "stored-bytes")]⟩ "k" "stored-bytes"
      (by decide)⟩

/-- C3 (confirmed): submit is idempotent.  First conjunct: for a first
call whose location and error fields follow the submission contract,
calling submit again on the same token with any second arguments leaves
the state (Status Store and persisted files) exactly as after the first
call.  Second conjunct: once the token is non-pending, submit returns the
"already processed" acknowledgment and does not touch storage at all. -/
theorem submit_idempotent :
    (∀ (st : ServerState) (token : Option String) (l1 e1 l2 e2 : PyVal),
      locationFieldOk l1 → errorFieldOk e1 →
      (submit_location (submit_location st token l1 e1).2 token l2 e2).2 =
        (submit_location st token l1 e1).2) ∧
    (∀ (st : ServerState) (rid s0 : String) (l e : PyVal),
      rid ≠ "" → lookupS st.requestDb rid = some s0 → s0 ≠ "pending" →
      submit_location st (some rid) l e = (SubmitResult.alreadyProcessed, st)) := by
  constructor
  · intro st token l1 e1 l2 e2 hl1 he1
    cases token with
    | none => simp [submit_location]
    | some rid =>
      by_cases hr : rid = ""
      · simp [submit_location, hr]
      · cases hdb : lookupS st.requestDb rid with
        | none =>
          have h1 : submit_location st (some rid) l1 e1 = (SubmitResult.invalidToken, st) := by
            simp [submit_location, hr, hdb]
          have h2 : submit_location st (some rid) l2 e2 = (SubmitResult.invalidToken, st) := by
            simp [submit_location, hr, hdb]
          rw [h1]
          rw [h2]
        | some s0 =>
          by_cases hs : s0 = "pending"
          · subst hs
            by_cases hl : truthy l1 = true
            · have hdict : ∃ fs, l1 = PyVal.vDict fs := by
                rcases hl1 with h | h
                · rw [h] at hl
                  exact absurd hl (by decide)
                · exact h
              obtain ⟨fs, rfl⟩ := hdict
              obtain ⟨xml, hgen⟩ := gen_completed_dict_isSome rid fs hl
              have h1 : submit_location st (some rid) (PyVal.vDict fs) e1 =
                  (SubmitResult.received,
                    ⟨setEntry st.requestDb rid "completed", setEntry st.files rid xml⟩) := by
                simp [submit_location, hr, hdb, hl, hgen]
              rw [h1]
              show (submit_location
                  ⟨setEntry st.requestDb rid "completed", setEntry st.files rid xml⟩
                  (some rid) l2 e2).2 =
                (⟨setEntry st.requestDb rid "completed", setEntry st.files rid xml⟩ :
                  ServerState)
              rw [submit_nonpending _ rid "completed" l2 e2 hr
                (by simp [lookupS_setEntry]) (by decide)]
            · obtain ⟨xml, hgen⟩ := gen_denied_isSome rid e1 he1
              have h1 : submit_location st (some rid) l1 e1 =
                  (SubmitResult.received,
                    ⟨setEntry st.requestDb rid "denied", setEntry st.files rid xml⟩) := by
                simp [submit_location, hr, hdb, hl, hgen]
              rw [h1]
              show (submit_location
                  ⟨setEntry st.requestDb rid "denied", setEntry st.files rid xml⟩
                  (some rid) l2 e2).2 =
                (⟨setEntry st.requestDb rid "denied", setEntry st.files rid xml⟩ :
                  ServerState)
              rw [submit_nonpending _ rid "denied" l2 e2 hr
                (by simp [lookupS_setEntry]) (by decide)]
          · rw [submit_nonpending st rid s0 l1 e1 hr hdb hs]
            rw [submit_nonpending st rid s0 l2 e2 hr hdb hs]
  · intro st rid s0 l e hr hdb hs
    exact submit_nonpending st rid s0 l e hr hdb hs

/-- C3 witness: a denial for pending token "c" followed by a second submit
with different arguments, and a direct re-submit on completed token "d". -/
theorem submit_idempotent_witness :
    (submit_location
        (submit_location ⟨[("c", "pending")], []⟩ (some "c") PyVal.vNone PyVal.vNone).2
        (some "c") (PyVal.vDict [("lat", PyVal.vNum "1")]) PyVal.vNone).2 =
      (submit_location ⟨[("c", "pending")], []⟩ (some "c") PyVal.vNone PyVal.vNone).2 ∧
    submit_location ⟨[("d", "completed")], []⟩ (some "d") PyVal.vNone PyVal.vNone =
      (SubmitResult.alreadyProcessed, ⟨[("d", "completed")], []⟩) :=
  ⟨submit_idempotent.1 ⟨[("c", "pending")], []⟩ (some "c") PyVal.vNone PyVal.vNone
      (PyVal.vDict [("lat", PyVal.vNum "1")]) PyVal.vNone (Or.inl rfl) (Or.inl rfl),
    submit_idempotent.2 ⟨[("d", "completed")], []⟩ "d" "completed" PyVal.vNone PyVal.vNone
      (by decide) (by decide) (by decide)⟩

/-- C10 (confirmed): a present-but-falsy location (for example the empty
object) on a known pending token is treated as a denial: the entry goes to
denied and the stored document has no Coordinates element; conversely the
completed transition can only have happened for a truthy location. -/
theorem falsy_location_denial :
    (∀ (st : ServerState) (rid : String) (l e : PyVal),
      lookupS st.requestDb rid = some "pending" → rid ≠ "" →
      truthy l = false → errorFieldOk e →
      lookupS (submit_location st (some rid) l e).2.requestDb rid = some "denied" ∧
      ∃ doc, lookupS (submit_location st (some rid) l e).2.files rid = some doc ∧
        ∃ d, parseLocationXml doc = some d ∧ d.status = "denied" ∧ d.coords = none) ∧
    (∀ (st : ServerState) (rid : String) (l e : PyVal),
      lookupS (submit_location st (some rid) l e).2.requestDb rid = some "completed" →
      lookupS st.requestDb rid = some "completed" ∨ truthy l = true) := by
  constructor
  · intro st rid l e hdb hr hl he
    have hcase : (truthy e = false) ∨ (∃ s, e = PyVal.vStr s ∧ s ≠ "") := by
      rcases he with he | ⟨s, he⟩
      · subst he
        left
        decide
      · subst he
        by_cases hs : s = ""
        · subst hs
          left
          decide
        · right
          exact ⟨s, rfl, hs⟩
    rcases hcase with hfalsy | ⟨s, rfl, hs⟩
    · obtain ⟨doc, hgen, hparse⟩ := gen_parse_denied_falsy rid e hfalsy
      have hsub : submit_location st (some rid) l e =
          (SubmitResult.received,
            ⟨setEntry st.requestDb rid "denied", setEntry st.files rid doc⟩) := by
        simp [submit_location, hr, hdb, hl, hgen]
      rw [hsub]
      exact ⟨by simp [lookupS_setEntry], doc, by simp [lookupS_setEntry],
        ⟨rid, "denied", none, none⟩, hparse, rfl, rfl⟩
    · obtain ⟨doc, hgen, hparse⟩ := gen_parse_denied_msg rid s hs
      have hsub : submit_location st (some rid) l (PyVal.vStr s) =
          (SubmitResult.received,
            ⟨setEntry st.requestDb rid "denied", setEntry st.files rid doc⟩) := by
        simp [submit_location, hr, hdb, hl, hgen]
      rw [hsub]
      exact ⟨by simp [lookupS_setEntry], doc, by simp [lookupS_setEntry],
        ⟨rid, "denied", none, some s⟩, hparse, rfl, rfl⟩
  · intro st rid l e hafter
    by_cases hr : rid = ""
    · left
      have h0 : (submit_location st (some rid) l e).2 = st := by
        simp [submit_location, hr]
      rwa [h0] at hafter
    · cases hdb : lookupS st.requestDb rid with
      | none =>
        exfalso
        have h0 : (submit_location st (some rid) l e).2 = st := by
          simp [submit_location, hr, hdb]
        rw [h0, hdb] at hafter
        exact absurd hafter (by decide)
      | some s0 =>
        by_cases hs : s0 = "pending"
        · subst hs
          by_cases hl : truthy l = true
          · right
            exact hl
          · exfalso
            cases hgen : generate_xml_response rid "denied" PyVal.vNone e with
            | none =>
              have h0 : (submit_location st (some rid) l e).2 = st := by
                simp [submit_location, hr, hdb, hl, hgen]
              rw [h0, hdb] at hafter
              exact absurd hafter (by decide)
            | some xml =>
              have h0 : (submit_location st (some rid) l e).2 =
                  ⟨setEntry st.requestDb rid "denied", setEntry st.files rid xml⟩ := by
                simp [submit_location, hr, hdb, hl, hgen]
              rw [h0] at hafter
              simp [lookupS_setEntry] at hafter
        · left
          rw [submit_nonpending st rid s0 l e hr hdb hs] at hafter
          have hafter2 : lookupS st.requestDb rid = some "completed" := hafter
          rw [hdb] at hafter2
          exact hafter2

/-- C10 witness: an empty-object location for pending token "e", and a
completed transition for pending token "f" with a truthy location. -/
theorem falsy_location_denial_witness :
    (lookupS (submit_location ⟨[("e", "pending")], []⟩ (some "e") (PyVal.vDict [])
        PyVal.vNone).2.requestDb "e" = some "denied" ∧
      ∃ doc, lookupS (submit_location ⟨[("e", "pending")], []⟩ (some "e") (PyVal.vDict [])
          PyVal.vNone).2.files "e" = some doc ∧
        ∃ d, parseLocationXml doc = some d ∧ d.status = "denied" ∧ d.coords = none) ∧
    (lookupS (⟨[("f", "pending")], []⟩ : ServerState).requestDb "f" = some "completed" ∨
      truthy (PyVal.vDict [("lat", PyVal.vNum "1"), ("lon", PyVal.vNum "2")]) = true) :=
  ⟨falsy_location_denial.1 ⟨[("e", "pending")], []⟩ "e" (PyVal.vDict []) PyVal.vNone
      (by decide) (by decide) (by decide) (Or.inl rfl),
    falsy_location_denial.2 ⟨[("f", "pending")], []⟩ "f"
      (PyVal.vDict [("lat", PyVal.vNum "1"), ("lon", PyVal.vNum "2")]) PyVal.vNone
      (by decide)⟩

theorem applyOp_db_cases (st : ServerState) (o : Op) (hok : opOk st o) (t : String) :
    lookupS (applyOp st o).requestDb t = lookupS st.requestDb t ∨
    (lookupS st.requestDb t = some "pending" ∧
      (lookupS (applyOp st o).requestDb t = some "completed" ∨
       lookupS (applyOp st o).requestDb t = some "denied")) ∨
    lookupS st.requestDb t = none := by
  cases o with
  | consent rid => exact Or.inl rfl
  | fetch rid => exact Or.inl rfl
  | req clientOk phone fresh sendOk =>
    have hfresh : lookupS st.requestDb fresh = none := hok
    cases clientOk with
    | false => exact Or.inl (by simp [applyOp, request_location])
    | true =>
      by_cases hp : truthy phone = true
      · cases sendOk with
        | true =>
          by_cases ht : t = fresh
          · subst ht
            exact Or.inr (Or.inr hfresh)
          · refine Or.inl ?_
            simp [applyOp, request_location, hp, lookupS_setEntry, ht]
        | false =>
          refine Or.inl ?_
          have h0 : (request_location st true phone fresh false).2 = st := by
            cases st with
            | mk db files =>
              simp [request_location, hp, eraseKey_setEntry_fresh db fresh "pending" hfresh]
          simp [applyOp, h0]
      · refine Or.inl ?_
        simp [applyOp, request_location, hp]
  | submit token l e =>
    cases token with
    | none => exact Or.inl rfl
    | some rid =>
      by_cases hr : rid = ""
      · exact Or.inl (by simp [applyOp, submit_location, hr])
      · cases hdb : lookupS st.requestDb rid with
        | none => exact Or.inl (by simp [applyOp, submit_location, hr, hdb])
        | some s0 =>
          by_cases hs : s0 = "pending"
          · subst hs
            by_cases hl : truthy l = true
            · cases hgen : generate_xml_response rid "completed" l PyVal.vNone with
              | none =>
                exact Or.inl (by simp [applyOp, submit_location, hr, hdb, hl, hgen])
              | some xml =>
                have h0 : (applyOp st (Op.submit (some rid) l e)).requestDb =
                    setEntry st.requestDb rid "completed" := by
                  simp [applyOp, submit_location, hr, hdb, hl, hgen]
                by_cases ht : t = rid
                · subst ht
                  refine Or.inr (Or.inl ⟨hdb, Or.inl ?_⟩)
                  simp [h0, lookupS_setEntry]
                · refine Or.inl ?_
                  simp [h0, lookupS_setEntry, ht]
            · cases hgen : generate_xml_response rid "denied" PyVal.vNone e with
              | none =>
                exact Or.inl (by simp [applyOp, submit_location, hr, hdb, hl, hgen])
              | some xml =>
                have h0 : (applyOp st (Op.submit (some rid) l e)).requestDb =
                    setEntry st.requestDb rid "denied" := by
                  simp [applyOp, submit_location, hr, hdb, hl, hgen]
                by_cases ht : t = rid
                · subst ht
                  refine Or.inr (Or.inl ⟨hdb, Or.inr ?_⟩)
                  simp [h0, lookupS_setEntry]
                · refine Or.inl ?_
                  simp [h0, lookupS_setEntry, ht]
          · exact Or.inl (by rw [applyOp, submit_nonpending st rid s0 l e hr hdb hs])

theorem steps_preserve_terminal (st : ServerState) (ops : List Op) (st2 : ServerState)
    (hsteps : Steps st ops st2) (t s0 : String) (hterm : s0 ≠ "pending") :
    lookupS st.requestDb t = some s0 → lookupS st2.requestDb t = some s0 := by
  induction hsteps with
  | nil st => exact fun h => h
  | cons st o ops st2 hok hrest ih =>
    intro h
    apply ih
    rcases applyOp_db_cases st o hok t with h1 | h2 | h3
    · rw [h1]
      exact h
    · exfalso
      rw [h] at h2
      exact hterm (Option.some.inj h2.1)
    · exfalso
      rw [h3] at h
      exact absurd h (by simp)

/-- C7 (confirmed): statuses move one way only.  First conjunct: along any
sequence of valid operations (fresh uuid draws), a token that is in a
terminal status, completed or denied, keeps exactly that status forever.
Second conjunct: whenever one operation changes the recorded status of a
token, the old status was pending and the new one is completed or denied. -/
theorem status_transitions_monotone :
    (∀ (st : ServerState) (ops : List Op) (st2 : ServerState),
      Steps st ops st2 → ∀ (t s0 : String),
      lookupS st.requestDb t = some s0 → s0 ≠ "pending" →
      lookupS st2.requestDb t = some s0) ∧
    (∀ (st : ServerState) (o : Op), opOk st o → ∀ (t s0 s1 : String),
      lookupS st.requestDb t = some s0 →
      lookupS (applyOp st o).requestDb t = some s1 →
      s0 ≠ s1 → s0 = "pending" ∧ (s1 = "completed" ∨ s1 = "denied")) := by
  constructor
  · intro st ops st2 hsteps t s0 h hterm
    exact steps_preserve_terminal st ops st2 hsteps t s0 hterm h
  · intro st o hok t s0 s1 h0 h1 hne
    rcases applyOp_db_cases st o hok t with hc | hc | hc
    · exfalso
      rw [hc, h0] at h1
      exact hne (Option.some.inj h1)
    · rw [h0] at hc
      refine ⟨Option.some.inj hc.1, ?_⟩
      rcases hc.2 with h2 | h2
      · rw [h2] at h1
        exact Or.inl (Option.some.inj h1).symm
      · rw [h2] at h1
        exact Or.inr (Option.some.inj h1).symm
    · exfalso
      rw [hc] at h0
      exact absurd h0 (by simp)

/-- C7 witness: a completed token survives a submit step unchanged, and a
denial step is a pending-to-denied transition. -/
theorem status_transitions_monotone_witness :
    lookupS (applyOp ⟨[("w", "completed")], []⟩
        (Op.submit (some "w") PyVal.vNone PyVal.vNone)).requestDb "w" =
      some "completed" ∧
    (("pending" : String) = "pending" ∧
      (("denied" : String) = "completed" ∨ ("denied" : String) = "denied")) :=
  ⟨status_transitions_monotone.1 ⟨[("w", "completed")], []⟩
      [Op.submit (some "w") PyVal.vNone PyVal.vNone] _
      (Steps.cons _ _ _ _ trivial (Steps.nil _)) "w" "completed" (by decide) (by decide),
    status_transitions_monotone.2 ⟨[("w", "pending")], []⟩
      (Op.submit (some "w") PyVal.vNone PyVal.vNone) trivial "w" "pending" "denied"
      (by decide) (by decide) (by decide)⟩

/-- C8 (confirmed): encode then decode is the identity on the coordinates.
The encoder is given a location object with latitude and longitude values
(numbers carried as their exact decimal literals, the form in which
`str` serializes them), and parsing the produced XML document recovers
exactly the latitude and longitude that were supplied. -/
theorem encode_decode_roundtrip_coords (rid lat lon : String) :
    ∃ doc, generate_xml_response rid "completed"
        (PyVal.vDict [("lat", PyVal.vNum lat), ("lon", PyVal.vNum lon)]) PyVal.vNone =
        some doc ∧
      parseLocationXml doc = some ⟨rid, "completed", some (lat, lon), none⟩ :=
  gen_parse_completed rid lat lon

/-- C9 (confirmed): the encoder is a pure function (a Lean function of its
arguments) and escapes all text content: for every denial reason string,
the produced document is a well-formed instance of the result schema (the
schema parser accepts it) and the unescaped Message content is exactly the
original string; the empty reason yields a document with no Message
element, still well-formed. -/
theorem encode_escapes_wellformed (rid s : String) (hs : s ≠ "") :
    (∃ doc, generate_xml_response rid "denied" PyVal.vNone (PyVal.vStr s) = some doc ∧
      parseLocationXml doc = some ⟨rid, "denied", none, some s⟩) ∧
    (∃ doc0, generate_xml_response rid "denied" PyVal.vNone (PyVal.vStr "") = some doc0 ∧
      parseLocationXml doc0 = some ⟨rid, "denied", none, none⟩) :=
  ⟨gen_parse_denied_msg rid s hs,
    gen_parse_denied_falsy rid (PyVal.vStr "") (by decide)⟩

/-- C9 witness: a reason string containing markup characters round-trips
through escaping. -/
theorem encode_escapes_wellformed_witness :
    (∃ doc, generate_xml_response "r1" "denied" PyVal.vNone
        (PyVal.vStr "a&b<c>d") = some doc ∧
      parseLocationXml doc = some ⟨"r1", "denied", none, some "a&b<c>d"⟩) ∧
    (∃ doc0, generate_xml_response "r1" "denied" PyVal.vNone (PyVal.vStr "") = some doc0 ∧
      parseLocationXml doc0 = some ⟨"r1", "denied", none, none⟩) :=
  encode_escapes_wellformed "r1" "a&b<c>d" (by decide)
